import Mathlib

/-
Verification of the 0D cardiovascular-flow core of the ambit repository.

Shallow embedding conventions:
- PETSc vectors of the small dense ODE system are embedded as `ℕ → ℚ`
  (machine floats are modelled by exact rationals; the claims treated here
  are structural, not about rounding).
- Fallible Python code (raised exceptions) is embedded as `Except`.
- Methods of classes whose bodies are not part of the analysed sources
  (`cardiovascular0D`, `solver_utils.sol_utils`, `timeintegration`) are
  either kept abstract (fields of an operations record, with exactly the
  arguments the analysed call sites pass) or modelled from the spec, as
  flagged in their doc comments.
-/

namespace Ambit

/-! ## Embedding of `solver_nonlin.solver_nonlinear_ode` (solver_nonlin.py, lines 750-871) -/

/-- The problem object handed to `solver_nonlinear_ode`: residual assembly,
the per-iteration Jacobian assembly combined with the direct linear solve
(`assemble_stiffness` followed by `ksp.solve(-r, ds)`, which together map the
current state and residual to the increment `ds`), and the PETSc vector norm
(kept abstract). -/
structure ODEProblem where
  assemble_residual : (ℕ → ℚ) → ℚ → (ℕ → ℚ)
  solve_increment : (ℕ → ℚ) → (ℕ → ℚ) → ℚ → (ℕ → ℚ)
  norm : (ℕ → ℚ) → ℚ

/-- Modelled from the spec: `sol_utils.check_converged` (solver_utils.py is not
among the analysed sources). Convergence holds when both the residual norm and
the increment norm are at or below their configured absolute tolerances. -/
def check_converged (resnorm incnorm tolres tolinc : ℚ) : Bool :=
  decide (resnorm ≤ tolres ∧ incnorm ≤ tolinc)

/-- The record of solver parameters passed to `solver_nonlinear_ode.__init__`
(a Python dict; `none` encodes an absent key). -/
structure SolverParams where
  maxiter : Option ℕ
  direct_solver : Option String
  tol_res : Option ℚ
  tol_inc : Option ℚ

/-- The configuration state `solver_nonlinear_ode.__init__` establishes
(solver_nonlin.py, lines 752-785). -/
structure SolverConfig where
  maxiter : ℕ
  direct_solver : String
  tolres : ℚ
  tolinc : ℚ
  PTC : Bool
  solvetype : String

/-- Embedding of `solver_nonlinear_ode.__init__` (solver_nonlin.py, lines
752-785): `maxiter` and `direct_solver` are read inside try/except with
defaults 25 and "mumps"; `tol_res` and `tol_inc` are read by direct dict
access, so an absent key raises a KeyError; `PTC` is hard-set to `False` and
`solvetype` to "direct". -/
def solver_nonlinear_ode_init (sp : SolverParams) : Except String SolverConfig :=
  let maxiter := sp.maxiter.getD 25
  let dsolver := sp.direct_solver.getD "mumps"
  match sp.tol_res with
  | none => Except.error "KeyError: tol_res"
  | some tr =>
    match sp.tol_inc with
    | none => Except.error "KeyError: tol_inc"
    | some ti =>
      Except.ok { maxiter := maxiter, direct_solver := dsolver, tolres := tr,
                  tolinc := ti, PTC := false, solvetype := "direct" }

/-- Embedding of the `while it < self.maxiter` loop of
`solver_nonlinear_ode.newton` (solver_nonlin.py, lines 822-870), with
`fuel = maxiter - it` remaining loop entries. Each pass assembles the
Jacobian, solves the linear system for the increment `ds`, applies the full
increment (`self.pb.s.axpy(1.0, ds)` - no damping), reassembles the residual,
increments `it`, and only then checks convergence; when the loop condition
fails the Python `while ... else` branch raises a RuntimeError reporting `it`,
embedded as `Except.error it`. On convergence the solver records
`ni = it - 1` and returns. -/
def newtonGo (p : ODEProblem) (tolres tolinc t : ℚ) :
    ℕ → ℕ → (ℕ → ℚ) → (ℕ → ℚ) → Except ℕ ((ℕ → ℚ) × ℕ)
  | 0, it, _, _ => Except.error it
  | fuel + 1, it, s, r =>
    let ds := p.solve_increment s r t
    let s2 := fun i => s i + ds i
    let r2 := p.assemble_residual s2 t
    let resnorm := p.norm r2
    let incnorm := p.norm ds
    let it2 := it + 1
    if check_converged resnorm incnorm tolres tolinc then Except.ok (s2, it2 - 1)
    else newtonGo p tolres tolinc t fuel it2 s2 r2

/-- Embedding of `solver_nonlinear_ode.newton` (solver_nonlin.py, lines
799-870): the initial residual and its norm are computed at `it = 0` (the norm
is only stored and printed - it is not compared against any tolerance), `it`
becomes 1, and the loop runs while `it < maxiter`. -/
def newton (p : ODEProblem) (tolres tolinc : ℚ) (maxiter : ℕ) (s : ℕ → ℚ)
    (t : ℚ) : Except ℕ ((ℕ → ℚ) × ℕ) :=
  let r := p.assemble_residual s t
  let _resnorm0 := p.norm r
  newtonGo p tolres tolinc t (maxiter - 1) 1 s r

/-- Any `ok` configuration produced by `solver_nonlinear_ode.__init__` has the
pseudo-transient-continuation flag off. -/
theorem solver_nonlinear_ode_init_PTC (sp : SolverParams) (cfg : SolverConfig)
    (h : solver_nonlinear_ode_init sp = Except.ok cfg) : cfg.PTC = false := by
  unfold solver_nonlinear_ode_init at h
  rcases hr : sp.tol_res with _ | tr <;> rw [hr] at h
  · simp at h
  · rcases hi : sp.tol_inc with _ | ti <;> rw [hi] at h
    · simp at h
    · simp only [Except.ok.injEq] at h
      rw [← h]

/-- If the Newton loop exits with an error, the reported iteration count is
the entry count plus the remaining fuel. -/
theorem newtonGo_error_eq (p : ODEProblem) (a b t : ℚ) :
    ∀ fuel it s r k, newtonGo p a b t fuel it s r = Except.error k →
      k = it + fuel := by
  intro fuel
  induction fuel with
  | zero =>
    intro it s r k h
    simp only [newtonGo, Except.error.injEq] at h
    omega
  | succ n ih =>
    intro it s r k h
    simp only [newtonGo] at h
    split at h
    · exact absurd h (by simp)
    · have := ih _ _ _ _ h
      omega

/-- A successful Newton loop exit happened at an iteration index at least the
entry index, the final residual norm meets the residual tolerance, and the
final state is its predecessor plus a full increment whose norm meets the
increment tolerance. -/
theorem newtonGo_ok_spec (p : ODEProblem) (a b t : ℚ) :
    ∀ fuel it s r s2 n, r = p.assemble_residual s t →
      newtonGo p a b t fuel it s r = Except.ok (s2, n) →
      it ≤ n ∧ p.norm (p.assemble_residual s2 t) ≤ a ∧
      ∃ u, s2 = (fun i => u i + p.solve_increment u (p.assemble_residual u t) t i) ∧
        p.norm (p.solve_increment u (p.assemble_residual u t) t) ≤ b := by
  intro fuel
  induction fuel with
  | zero =>
    intro it s r s2 n _ h
    exact absurd h (by simp [newtonGo])
  | succ m ih =>
    intro it s r s2 n hr h
    simp only [newtonGo] at h
    split at h
    case isTrue hc =>
      simp only [Except.ok.injEq, Prod.mk.injEq] at h
      obtain ⟨hs2, hn⟩ := h
      simp only [check_converged, decide_eq_true_eq] at hc
      subst hr
      refine ⟨by omega, ?_, s, hs2.symm, hc.2⟩
      rw [← hs2]
      exact hc.1
    case isFalse =>
      have hmain := ih (it + 1) _ _ s2 n rfl h
      exact ⟨by omega, hmain.2⟩

/-- If no loop pass can satisfy the convergence check, the loop always exits
with the fatal error, reporting the entry iteration index plus the fuel. -/
theorem newtonGo_never_converged (p : ODEProblem) (a b t : ℚ)
    (h : ∀ s r : ℕ → ℚ,
      check_converged
        (p.norm (p.assemble_residual (fun i => s i + p.solve_increment s r t i) t))
        (p.norm (p.solve_increment s r t)) a b = false) :
    ∀ fuel it s r, newtonGo p a b t fuel it s r = Except.error (it + fuel) := by
  intro fuel
  induction fuel with
  | zero => intro it s r; simp [newtonGo]
  | succ n ih =>
    intro it s r
    simp only [newtonGo, h s r, Bool.false_eq_true, if_false]
    rw [show it + (n + 1) = (it + 1) + n by omega]
    exact ih (it + 1) _ _

/-- If the convergence check already holds after the first loop pass, the loop
returns the once-updated state with `ni = it`. -/
theorem newtonGo_first_converged (p : ODEProblem) (a b t : ℚ) (fuel it : ℕ)
    (s r : ℕ → ℚ)
    (hc : check_converged
        (p.norm (p.assemble_residual (fun i => s i + p.solve_increment s r t i) t))
        (p.norm (p.solve_increment s r t)) a b = true) :
    newtonGo p a b t (fuel + 1) it s r =
      Except.ok ((fun i => s i + p.solve_increment s r t i), it) := by
  simp [newtonGo, hc]

def tol8 : ℚ := 1 / 100000000

def s_zero : ℕ → ℚ := fun _ => 0

/-- A problem whose residual norm never falls: the Newton iteration can never
converge. -/
def p_div : ODEProblem :=
  { assemble_residual := fun _ _ => fun _ => 1
    solve_increment := fun _ _ _ => fun _ => 1
    norm := fun v => v 0 }

def sp_div : SolverParams :=
  { maxiter := some 3, direct_solver := none, tol_res := some 0, tol_inc := some 0 }

def cfg_div : SolverConfig :=
  { maxiter := 3, direct_solver := "mumps", tolres := 0, tolinc := 0,
    PTC := false, solvetype := "direct" }

/-- C1: if the ODE Newton solver exhausts its configured maximum number of
iterations without both norms meeting their tolerances, it raises a fatal
RuntimeError (embedded as `Except.error`) reporting the iteration count, which
at that point equals the configured maximum; the solver configuration has
pseudo-transient continuation switched off (`self.PTC = False`), and the loop
applies every increment in full (`axpy(1.0, ds)` in the embedding above), so no
step-size reduction happens before the failure. -/
theorem newton_ode_maxiter_fatal_no_ptc (p : ODEProblem) (sp : SolverParams)
    (cfg : SolverConfig) (s : ℕ → ℚ) (t : ℚ) (k : ℕ)
    (hcfg : solver_nonlinear_ode_init sp = Except.ok cfg)
    (hmax : 1 ≤ cfg.maxiter)
    (h : newton p cfg.tolres cfg.tolinc cfg.maxiter s t = Except.error k) :
    k = cfg.maxiter ∧ cfg.PTC = false := by
  refine ⟨?_, solver_nonlinear_ode_init_PTC sp cfg hcfg⟩
  unfold newton at h
  have := newtonGo_error_eq p cfg.tolres cfg.tolinc t _ _ _ _ _ h
  omega

/-- C1 witness: a concrete divergent run with `maxiter = 3` aborts reporting 3
iterations, with PTC off. -/
theorem newton_ode_maxiter_fatal_no_ptc_witness :
    (3 : ℕ) = cfg_div.maxiter ∧ cfg_div.PTC = false :=
  newton_ode_maxiter_fatal_no_ptc p_div sp_div cfg_div s_zero 0 3 rfl
    (by decide)
    (newtonGo_never_converged p_div 0 0 0
      (fun s r => by norm_num [check_converged, p_div]) 2 1 s_zero
      (p_div.assemble_residual s_zero 0))

/-- A problem whose residual is identically zero, so its starting state already
satisfies the residual tolerance, but whose linear solve produces a large
increment. -/
def p_conv0 : ODEProblem :=
  { assemble_residual := fun _ _ => fun _ => 0
    solve_increment := fun _ _ _ => fun _ => 5
    norm := fun v => v 0 }

/-- C2 counterexample: the claim that the convergence check also runs at
iteration 0 (before the first linear solve), letting an already-converged
starting state exit immediately, is false. Here the starting state has
residual norm 0 (at or below both tolerances), yet `newton` does not exit
immediately: it performs Jacobian evaluations and linear solves and, since the
produced increments stay large, even aborts with the maximum iteration
count. -/
theorem newton_ode_no_iteration_zero_check_cex :
    p_conv0.norm (p_conv0.assemble_residual s_zero 0) ≤ tol8 ∧
    newton p_conv0 tol8 tol8 3 s_zero 0 = Except.error 3 :=
  ⟨by norm_num [p_conv0, s_zero, tol8],
   newtonGo_never_converged p_conv0 tol8 tol8 0
     (fun s r => by norm_num [check_converged, p_conv0, tol8]) 2 1 s_zero
     (p_conv0.assemble_residual s_zero 0)⟩

/-- C2 (amended): convergence is declared only when both the residual norm and
the increment norm are at or below their tolerances, but this check runs only
after each iteration from iteration 1 onward - after that iteration's Jacobian
evaluation and linear solve. There is no iteration-0 pre-solve check, so every
successful solve reports at least one nonlinear iteration (`ni ≥ 1`), its final
residual norm meets the residual tolerance, and its final state was produced by
a linear-solve increment whose norm meets the increment tolerance. -/
theorem newton_ode_convergence_requires_solve (p : ODEProblem)
    (tolres tolinc : ℚ) (maxiter : ℕ) (s : ℕ → ℚ) (t : ℚ) (s2 : ℕ → ℚ) (n : ℕ)
    (h : newton p tolres tolinc maxiter s t = Except.ok (s2, n)) :
    1 ≤ n ∧ p.norm (p.assemble_residual s2 t) ≤ tolres ∧
    ∃ u, s2 = (fun i => u i + p.solve_increment u (p.assemble_residual u t) t i) ∧
      p.norm (p.solve_increment u (p.assemble_residual u t) t) ≤ tolinc := by
  unfold newton at h
  exact newtonGo_ok_spec p tolres tolinc t _ 1 s _ s2 n rfl h

/-- A problem that converges in the first loop pass (zero residual and zero
increments). -/
def p_ok : ODEProblem :=
  { assemble_residual := fun _ _ => fun _ => 0
    solve_increment := fun _ _ _ => fun _ => 0
    norm := fun v => v 0 }

def s_after : ℕ → ℚ :=
  fun i => s_zero i + p_ok.solve_increment s_zero (p_ok.assemble_residual s_zero 0) 0 i

/-- C2 (amended) witness: a concrete converging run exits with `ni = 1`, final
residual norm within tolerance, and a within-tolerance final increment. -/
theorem newton_ode_convergence_requires_solve_witness :
    1 ≤ 1 ∧ p_ok.norm (p_ok.assemble_residual s_after 0) ≤ tol8 ∧
    ∃ u, s_after = (fun i => u i + p_ok.solve_increment u (p_ok.assemble_residual u 0) 0 i) ∧
      p_ok.norm (p_ok.solve_increment u (p_ok.assemble_residual u 0) 0) ≤ tol8 :=
  newton_ode_convergence_requires_solve p_ok tol8 tol8 3 s_zero 0 s_after 1
    (newtonGo_first_converged p_ok tol8 tol8 0 1 1 s_zero
      (p_ok.assemble_residual s_zero 0)
      (by norm_num [check_converged, p_ok, tol8]))

def sp_no_tolres : SolverParams :=
  { maxiter := none, direct_solver := none, tol_res := none, tol_inc := some tol8 }

/-- C5 counterexample: a solver parameter record that omits the residual
tolerance does not construct successfully with a 1e-8 default - construction
fails with a KeyError, because `tol_res` is read by direct dictionary access
(solver_nonlin.py, line 769). -/
theorem solver_ode_init_missing_tol_fails_cex :
    solver_nonlinear_ode_init sp_no_tolres = Except.error "KeyError: tol_res" := rfl

/-- C5 (amended): `maxiter` and `direct_solver` may be omitted and default to
25 and "mumps", but `tol_res` and `tol_inc` are mandatory: construction
succeeds exactly when both are supplied (with precisely the supplied values,
no 1e-8 default), and omitting either fails at construction with a
KeyError. -/
theorem solver_ode_init_defaults_and_required_tols (sp : SolverParams)
    (tr ti : ℚ) :
    (sp.tol_res = some tr → sp.tol_inc = some ti →
      solver_nonlinear_ode_init sp =
        Except.ok { maxiter := sp.maxiter.getD 25,
                    direct_solver := sp.direct_solver.getD "mumps",
                    tolres := tr, tolinc := ti, PTC := false,
                    solvetype := "direct" }) ∧
    (sp.tol_res = none →
      solver_nonlinear_ode_init sp = Except.error "KeyError: tol_res") ∧
    (sp.tol_res = some tr → sp.tol_inc = none →
      solver_nonlinear_ode_init sp = Except.error "KeyError: tol_inc") := by
  refine ⟨fun h1 h2 => ?_, fun h1 => ?_, fun h1 h2 => ?_⟩ <;>
    simp [solver_nonlinear_ode_init, h1]
  · simp [h2]
  · simp [h2]

def sp_only_tols : SolverParams :=
  { maxiter := none, direct_solver := none, tol_res := some tol8, tol_inc := some tol8 }

/-- C5 (amended) witness: supplying only the two tolerances constructs a solver
with `maxiter = 25` and the mumps direct solver. -/
theorem solver_ode_init_defaults_and_required_tols_witness :
    solver_nonlinear_ode_init sp_only_tols =
      Except.ok { maxiter := 25, direct_solver := "mumps", tolres := tol8,
                  tolinc := tol8, PTC := false, solvetype := "direct" } :=
  (solver_ode_init_defaults_and_required_tols sp_only_tols tol8 tol8).1 rfl rfl

/-! ## Embedding of `Flow0DProblem.__init__` (flow0d.py, lines 23-136) -/

/-- The closed set of 0D model classes the constructor can instantiate
(flow0d.py, lines 82-105). -/
inductive Cardiovascular0DModel
  | cardiovascular0D2elwindkessel
  | cardiovascular0D4elwindkesselLsZ
  | cardiovascular0D4elwindkesselLpZ
  | cardiovascular0Dsyspul
  | cardiovascular0Dsyspulcap
  | cardiovascular0Dsyspulcap2
  | cardiovascular0Dsyspulcaprespir
deriving DecidableEq

/-- Embedding of the `model_params['modeltype']` dispatch chain of
`Flow0DProblem.__init__` (flow0d.py, lines 82-105): each recognized tag
instantiates the corresponding model class; any other tag raises
`NameError("Unknown 0D modeltype!")` during construction, before any time
stepping. -/
def initialize_0D_model (modeltype : String) : Except String Cardiovascular0DModel :=
  if modeltype = "2elwindkessel" then Except.ok .cardiovascular0D2elwindkessel
  else if modeltype = "4elwindkesselLsZ" then Except.ok .cardiovascular0D4elwindkesselLsZ
  else if modeltype = "4elwindkesselLpZ" then Except.ok .cardiovascular0D4elwindkesselLpZ
  else if modeltype = "syspul" then Except.ok .cardiovascular0Dsyspul
  else if modeltype = "syspulcap" then Except.ok .cardiovascular0Dsyspulcap
  else if modeltype = "syspulcap2" then Except.ok .cardiovascular0Dsyspulcap2
  else if modeltype = "syspulcaprespir" then Except.ok .cardiovascular0Dsyspulcaprespir
  else Except.error "Unknown 0D modeltype!"

def recognized_modeltypes : List String :=
  ["2elwindkessel", "4elwindkesselLsZ", "4elwindkesselLpZ", "syspul",
   "syspulcap", "syspulcap2", "syspulcaprespir"]

/-- The time-parameter dict entries `Flow0DProblem.__init__` reads for the
periodicity machinery (`none` encodes an absent key). -/
structure TimeParams0D where
  theta_ost : ℚ
  eps_periodic : Option ℚ
  periodic_checktype : Option String

/-- The model-parameter dict entries `Flow0DProblem.__init__` reads for model
selection and perturbation scheduling. -/
structure ModelParams0D where
  modeltype : String
  perturb_type : Option String
  perturb_after_cylce : Option ℤ

/-- The attributes of a constructed `Flow0DProblem` that the solve loop
consumes. -/
structure Flow0DProblemRec where
  eps_periodic : ℚ
  periodic_checktype : String
  perturb_type : Option String
  perturb_after_cylce : ℤ
  cardvasc0D : Cardiovascular0DModel
  theta_ost : ℚ

/-- Embedding of `Flow0DProblem.__init__` (flow0d.py, lines 23-136, restricted
to the attributes the solve loop consumes): `eps_periodic` defaults to 1.0e-20
and `periodic_checktype` to "allvar" via try/except (lines 65-69);
`perturb_after_cylce` defaults to -1 and is forced to -1 when no perturbation
type is set (lines 74-80); the modeltype dispatch (lines 82-105) raises on an
unknown tag, so no problem object exists and no time stepping can start. The
float literal 1.0e-20 is embedded as the exact rational it denotes. -/
def Flow0DProblem_init (tp : TimeParams0D) (mp : ModelParams0D) :
    Except String Flow0DProblemRec :=
  let eps := tp.eps_periodic.getD (1 / 100000000000000000000)
  let chk := tp.periodic_checktype.getD "allvar"
  let pac0 := mp.perturb_after_cylce.getD (-1)
  let pac := if mp.perturb_type = none then (-1 : ℤ) else pac0
  match initialize_0D_model mp.modeltype with
  | Except.error e => Except.error e
  | Except.ok m =>
    Except.ok { eps_periodic := eps, periodic_checktype := chk,
                perturb_type := mp.perturb_type, perturb_after_cylce := pac,
                cardvasc0D := m, theta_ost := tp.theta_ost }

/-- C7: any model-selection tag outside the recognized set makes the 0D flow
problem construction fail immediately with the unknown-modeltype configuration
error (so no problem object exists when time stepping would start), while each
of the seven recognized tags instantiates the corresponding model class. -/
theorem modeltype_dispatch_unknown_fails_fast (tag : String) (tp : TimeParams0D)
    (mp : ModelParams0D) :
    (tag ∉ recognized_modeltypes →
      initialize_0D_model tag = Except.error "Unknown 0D modeltype!") ∧
    (mp.modeltype ∉ recognized_modeltypes →
      Flow0DProblem_init tp mp = Except.error "Unknown 0D modeltype!") ∧
    initialize_0D_model "2elwindkessel" = Except.ok .cardiovascular0D2elwindkessel ∧
    initialize_0D_model "4elwindkesselLsZ" = Except.ok .cardiovascular0D4elwindkesselLsZ ∧
    initialize_0D_model "4elwindkesselLpZ" = Except.ok .cardiovascular0D4elwindkesselLpZ ∧
    initialize_0D_model "syspul" = Except.ok .cardiovascular0Dsyspul ∧
    initialize_0D_model "syspulcap" = Except.ok .cardiovascular0Dsyspulcap ∧
    initialize_0D_model "syspulcap2" = Except.ok .cardiovascular0Dsyspulcap2 ∧
    initialize_0D_model "syspulcaprespir" = Except.ok .cardiovascular0Dsyspulcaprespir := by
  have hdisp : ∀ tg : String, tg ∉ recognized_modeltypes →
      initialize_0D_model tg = Except.error "Unknown 0D modeltype!" := by
    intro tg h
    simp only [recognized_modeltypes, List.mem_cons, List.mem_singleton,
      not_or] at h
    obtain ⟨h1, h2, h3, h4, h5, h6, h7⟩ := h
    simp [initialize_0D_model, h1, h2, h3, h4, h5, h6, h7]
  refine ⟨hdisp tag, fun h => ?_, rfl, rfl, rfl, rfl, rfl, rfl, rfl⟩
  simp [Flow0DProblem_init, hdisp mp.modeltype h]

def tp_defaults : TimeParams0D :=
  { theta_ost := 1 / 2, eps_periodic := none, periodic_checktype := none }

def mp_unknown : ModelParams0D :=
  { modeltype := "CRLinc", perturb_type := none, perturb_after_cylce := none }

/-- C7 witness: the unrecognized tag "CRLinc" makes both the dispatch and the
problem construction fail with the unknown-modeltype error, and "syspul" is
dispatched to its model class. -/
theorem modeltype_dispatch_unknown_fails_fast_witness :
    Flow0DProblem_init tp_defaults mp_unknown = Except.error "Unknown 0D modeltype!" ∧
    initialize_0D_model "syspul" = Except.ok .cardiovascular0Dsyspul := by
  have h := modeltype_dispatch_unknown_fails_fast "CRLinc" tp_defaults mp_unknown
  exact ⟨h.2.1 (by decide), h.2.2.2.2.2.1⟩

def mp_syspul : ModelParams0D :=
  { modeltype := "syspul", perturb_type := none, perturb_after_cylce := none }

/-- C10: when the time parameters omit `eps_periodic` and `periodic_checktype`,
a successfully constructed `Flow0DProblem` carries the periodicity tolerance
1.0e-20 and the check type "allvar"; these attributes are exactly what
`Flow0DSolver.solve_problem` passes to `cycle_check` after every completed
step (flow0d.py, line 234). -/
theorem flow0d_init_default_eps_periodic_checktype (tp : TimeParams0D)
    (mp : ModelParams0D) (pr : Flow0DProblemRec)
    (h1 : tp.eps_periodic = none) (h2 : tp.periodic_checktype = none)
    (h : Flow0DProblem_init tp mp = Except.ok pr) :
    pr.eps_periodic = 1 / 100000000000000000000 ∧
    pr.periodic_checktype = "allvar" := by
  unfold Flow0DProblem_init at h
  rcases hm : initialize_0D_model mp.modeltype with e | m <;> rw [hm] at h
  · exact absurd h (by simp)
  · simp only [Except.ok.injEq] at h
    rw [← h]
    simp [h1, h2]

/-- C10 witness: constructing the syspul problem with both keys omitted yields
exactly these defaults. -/
theorem flow0d_init_default_eps_periodic_checktype_witness :
    ({ eps_periodic := 1 / 100000000000000000000, periodic_checktype := "allvar",
       perturb_type := none, perturb_after_cylce := -1,
       cardvasc0D := .cardiovascular0Dsyspul,
       theta_ost := 1 / 2 } : Flow0DProblemRec).eps_periodic =
        1 / 100000000000000000000 ∧
    ({ eps_periodic := 1 / 100000000000000000000, periodic_checktype := "allvar",
       perturb_type := none, perturb_after_cylce := -1,
       cardvasc0D := .cardiovascular0Dsyspul,
       theta_ost := 1 / 2 } : Flow0DProblemRec).periodic_checktype = "allvar" :=
  flow0d_init_default_eps_periodic_checktype tp_defaults mp_syspul _ rfl rfl rfl

/-! ## Cycle counter of the periodicity detector (C6) -/

/-- Modelled from the spec: the cycle-counter update of
`cardiovascular0D.cycle_check` (the cardiovascular0D base class is not among
the analysed sources; flow0d.py line 234 invokes it after every completed
step). A cycle boundary is detected whenever the simulated time `N * dt` of
the just-completed step has crossed the next multiple `c * T` of the cycle
length, and the counter then increments by one. -/
def cycle_counter_step (dt T : ℚ) (N c : ℕ) : ℕ :=
  if (c : ℚ) * T ≤ (N : ℚ) * dt then c + 1 else c

/-- Modelled from the spec: the cycle counter starts at 1 and is updated once
per completed time step. -/
def cycle_counter (dt T : ℚ) : ℕ → ℕ
  | 0 => 1
  | N + 1 => cycle_counter_step dt T (N + 1) (cycle_counter dt T N)

/-- C6: after N completed steps of size dt the cycle counter equals
`floor(N * dt / T) + 1` (a per-step fact, hence independent of whether
periodicity terminates the loop early), and across any single step the counter
is non-decreasing and grows by at most 1, so it increments by exactly 1 at
each completed cycle. Requires a positive step no longer than the cycle
length. -/
theorem cycle_counter_floor_formula_monotone (dt T : ℚ) (hdt : 0 < dt)
    (hdT : dt ≤ T) (N : ℕ) :
    (cycle_counter dt T N : ℤ) = ⌊(N : ℚ) * dt / T⌋ + 1 ∧
    cycle_counter dt T N ≤ cycle_counter dt T (N + 1) ∧
    cycle_counter dt T (N + 1) ≤ cycle_counter dt T N + 1 := by
  have hT : 0 < T := lt_of_lt_of_le hdt hdT
  have key : ∀ n : ℕ, (cycle_counter dt T n : ℤ) = ⌊(n : ℚ) * dt / T⌋ + 1 := by
    intro n
    induction n with
    | zero => simp [cycle_counter]
    | succ m ih =>
      have hab : (m : ℚ) * dt / T ≤ ((m + 1 : ℕ) : ℚ) * dt / T := by
        apply div_le_div_of_nonneg_right ?_ hT.le
        push_cast
        nlinarith
      have hf1 : ⌊(m : ℚ) * dt / T⌋ ≤ ⌊((m + 1 : ℕ) : ℚ) * dt / T⌋ :=
        Int.floor_le_floor hab
      have hba : ((m + 1 : ℕ) : ℚ) * dt / T ≤ (m : ℚ) * dt / T + 1 := by
        have hdiv : dt / T ≤ 1 := (div_le_one hT).mpr hdT
        have : ((m + 1 : ℕ) : ℚ) * dt / T = (m : ℚ) * dt / T + dt / T := by
          push_cast
          ring
        rw [this]
        linarith
      have hf2 : ⌊((m + 1 : ℕ) : ℚ) * dt / T⌋ ≤ ⌊(m : ℚ) * dt / T⌋ + 1 := by
        have := Int.floor_le_floor hba
        rwa [Int.floor_add_one] at this
      rw [show cycle_counter dt T (m + 1) =
        cycle_counter_step dt T (m + 1) (cycle_counter dt T m) from rfl]
      unfold cycle_counter_step
      split
      case isTrue hc =>
        have hcb : ((cycle_counter dt T m : ℚ)) ≤ ((m + 1 : ℕ) : ℚ) * dt / T :=
          (le_div_iff₀ hT).mpr hc
        have hcast : ((cycle_counter dt T m : ℤ) : ℚ) = (cycle_counter dt T m : ℚ) := by
          push_cast
          ring
        have hle : (cycle_counter dt T m : ℤ) ≤ ⌊((m + 1 : ℕ) : ℚ) * dt / T⌋ := by
          rw [Int.le_floor, hcast]
          exact hcb
        rw [ih] at hle
        have heq : ⌊((m + 1 : ℕ) : ℚ) * dt / T⌋ = ⌊(m : ℚ) * dt / T⌋ + 1 :=
          le_antisymm hf2 hle
        rw [heq]
        push_cast
        linarith [ih]
      case isFalse hc =>
        have hbc : ((m + 1 : ℕ) : ℚ) * dt / T < (cycle_counter dt T m : ℚ) := by
          rw [div_lt_iff₀ hT]
          linarith [lt_of_not_le hc]
        have hlt : ⌊((m + 1 : ℕ) : ℚ) * dt / T⌋ < (cycle_counter dt T m : ℤ) := by
          rw [Int.floor_lt]
          push_cast at hbc ⊢
          exact hbc
        rw [ih] at hlt
        have heq : ⌊((m + 1 : ℕ) : ℚ) * dt / T⌋ = ⌊(m : ℚ) * dt / T⌋ :=
          le_antisymm (by omega) hf1
        rw [heq]
        exact ih
  have mono : cycle_counter dt T N ≤ cycle_counter dt T (N + 1) ∧
      cycle_counter dt T (N + 1) ≤ cycle_counter dt T N + 1 := by
    rw [show cycle_counter dt T (N + 1) =
      cycle_counter_step dt T (N + 1) (cycle_counter dt T N) from rfl]
    unfold cycle_counter_step
    split <;> exact ⟨by omega, by omega⟩
  exact ⟨key N, mono.1, mono.2⟩

/-- C6 witness: with dt = 1/4 and T = 1, after 5 steps the counter is
`floor(5/4) + 1 = 2` and the step to N = 6 keeps it between 2 and 3. -/
theorem cycle_counter_floor_formula_monotone_witness :
    (cycle_counter (1 / 4) 1 5 : ℤ) = ⌊((5 : ℕ) : ℚ) * (1 / 4) / 1⌋ + 1 ∧
    cycle_counter (1 / 4) 1 5 ≤ cycle_counter (1 / 4) 1 (5 + 1) ∧
    cycle_counter (1 / 4) 1 (5 + 1) ≤ cycle_counter (1 / 4) 1 5 + 1 :=
  cycle_counter_floor_formula_monotone (1 / 4) 1 (by norm_num) (by norm_num) 5

/-! ## Perturbation injector (C3) -/

/-- State of the one-time perturbation injector: the already-perturbed flag
plus a ghost count of how often the parameter replacement actually ran. -/
structure PerturbState where
  have_induced_pert : Bool
  applied_count : ℕ
deriving DecidableEq

/-- Modelled from the spec: `cardiovascular0D.induce_perturbation` (the
cardiovascular0D base class is not among the analysed sources; it is invoked
after every completed time step, flow0d.py line 237, and once at restart,
solid_flow0d_growthremodel.py line 150). The parameter replacement runs only
when a trigger cycle is configured (positive; flow0d.py line 80 forces -1 when
no perturbation type is set), the current cycle has reached it, and it has not
run before; it then sets the already-perturbed flag, suppressing any
re-application. -/
def induce_perturbation (trigger : ℤ) (cycle : ℕ) (ps : PerturbState) : PerturbState :=
  if 0 < trigger ∧ trigger ≤ (cycle : ℤ) ∧ ps.have_induced_pert = false then
    { have_induced_pert := true, applied_count := ps.applied_count + 1 }
  else ps

/-- The injector invoked once per completed step, over the per-step cycle
counter readings of a run. -/
def run_perturbation (trigger : ℤ) : List ℕ → PerturbState → PerturbState
  | [], ps => ps
  | c :: rest, ps => run_perturbation trigger rest (induce_perturbation trigger c ps)

def ps0 : PerturbState := { have_induced_pert := false, applied_count := 0 }

/-- Once the perturbation has been induced, every later invocation leaves the
state untouched. -/
theorem run_perturbation_after_induced (trigger : ℤ) :
    ∀ l : List ℕ, ∀ ps : PerturbState, ps.have_induced_pert = true →
      run_perturbation trigger l ps = ps := by
  intro l
  induction l with
  | nil => intro ps _; rfl
  | cons c rest ih =>
    intro ps h
    have hstep : induce_perturbation trigger c ps = ps := by
      unfold induce_perturbation
      rw [if_neg]
      simp [h]
    rw [run_perturbation, hstep]
    exact ih ps h

/-- C3: over any run whose per-step cycle readings reach the configured
trigger cycle, the perturbation is applied exactly once (final state: flag
set, application count 1), and continuing the same run arbitrarily long -
including past the trigger cycle again - never re-applies it. -/
theorem perturbation_applied_exactly_once (trigger : ℤ) (cycles : List ℕ)
    (htrig : 0 < trigger) (hreach : ∃ c ∈ cycles, trigger ≤ (c : ℤ)) :
    run_perturbation trigger cycles ps0 =
      { have_induced_pert := true, applied_count := 1 } ∧
    ∀ more : List ℕ,
      run_perturbation trigger more (run_perturbation trigger cycles ps0) =
        { have_induced_pert := true, applied_count := 1 } := by
  have main : run_perturbation trigger cycles ps0 =
      { have_induced_pert := true, applied_count := 1 } := by
    induction cycles with
    | nil => simp at hreach
    | cons c rest ih =>
      by_cases hc : trigger ≤ (c : ℤ)
      · have hstep : induce_perturbation trigger c ps0 =
            { have_induced_pert := true, applied_count := 1 } := by
          unfold induce_perturbation
          rw [if_pos ⟨htrig, hc, rfl⟩]
          rfl
        rw [run_perturbation, hstep]
        exact run_perturbation_after_induced trigger rest _ rfl
      · have hstep : induce_perturbation trigger c ps0 = ps0 := by
          unfold induce_perturbation
          rw [if_neg]
          intro hcon
          exact hc hcon.2.1
        rw [run_perturbation, hstep]
        apply ih
        obtain ⟨d, hd, hdle⟩ := hreach
        rcases List.mem_cons.mp hd with h1 | h1
        · exact absurd (h1 ▸ hdle) hc
        · exact ⟨d, h1, hdle⟩
  exact ⟨main, fun more => by
    rw [main]
    exact run_perturbation_after_induced trigger more _ rfl⟩

/-- C3 witness: trigger cycle 2 over the cycle readings of a five-step run
applies the perturbation exactly once. -/
theorem perturbation_applied_exactly_once_witness :
    run_perturbation 2 [1, 1, 2, 2, 3] ps0 =
      { have_induced_pert := true, applied_count := 1 } :=
  (perturbation_applied_exactly_once 2 [1, 1, 2, 2, 3] (by decide)
    ⟨2, by decide, by decide⟩).1

/-! ## First-step backward-Euler policy (C4) -/

/-- Modelled from the spec: the per-step theta of the one-step-theta
integrator (`timeintegration.timeintegration_flow0d` is not among the
analysed sources; the demo opts into the policy through the
`initial_backwardeuler` time parameter, bleed.py line 45): the very first
time step of a run uses theta = 1 (backward Euler), every later step the
configured `theta_ost`. -/
def theta_for_step (theta_ost : ℚ) (N : ℕ) : ℚ := if N = 1 then 1 else theta_ost

/-- C4: step 1 of a run is integrated with theta = 1 regardless of the
configured theta, and every subsequent step uses the configured theta. -/
theorem first_step_backward_euler (theta_ost : ℚ) (N : ℕ) :
    theta_for_step theta_ost 1 = 1 ∧
    (2 ≤ N → theta_for_step theta_ost N = theta_ost) := by
  constructor
  · rfl
  · intro h
    unfold theta_for_step
    rw [if_neg (by omega)]

/-- C4 witness: with configured theta = 1/2, step 1 uses 1 and step 2 uses
1/2. -/
theorem first_step_backward_euler_witness :
    theta_for_step (1 / 2) 1 = 1 ∧ theta_for_step (1 / 2) 2 = 1 / 2 :=
  ⟨(first_step_backward_euler (1 / 2) 2).1,
   (first_step_backward_euler (1 / 2) 2).2 (by norm_num)⟩

/-! ## Activation curves of the bleed demo (bleed.py, lines 70-96 and 144-163) -/

/-- Cardiac cycle time `T_cycl` (bleed.py, line 156). -/
def T_cycl : ℝ := 0.4

/-- End-diastolic time `t_ed = 0.2 * T_cycl` (bleed.py, line 157). -/
def t_ed : ℝ := 0.2 * T_cycl

/-- End-systolic time `t_es = 0.53 * T_cycl` (bleed.py, line 158). -/
def t_es : ℝ := 0.53 * T_cycl

/-- Python's float modulo `t % T` for positive `T`: `t - T * floor(t / T)`. -/
noncomputable def pymod (t T : ℝ) : ℝ := t - T * ⌊t / T⌋

/-- Embedding of the atrial activation curve `time_curves.tc1` (bleed.py,
lines 73-83): raised cosine over the window `[0, 2 * t_ed]` of
`t % T_cycl`. -/
noncomputable def tc1 (t : ℝ) : ℝ :=
  let tmod := pymod t T_cycl
  let act_dur := 2 * t_ed
  let t0 : ℝ := 0
  if t0 ≤ tmod ∧ tmod ≤ t0 + act_dur then
    0.5 * (1 - Real.cos (2 * Real.pi * (tmod - t0) / act_dur))
  else 0

/-- Embedding of the ventricular activation curve `time_curves.tc2` (bleed.py,
lines 86-96): raised cosine over the window
`[t_ed, t_ed + 1.8 * (t_es - t_ed)]` of `t % T_cycl`. -/
noncomputable def tc2 (t : ℝ) : ℝ :=
  let tmod := pymod t T_cycl
  let act_dur := 1.8 * (t_es - t_ed)
  let t0 : ℝ := t_ed
  if t0 ≤ tmod ∧ tmod ≤ t0 + act_dur then
    0.5 * (1 - Real.cos (2 * Real.pi * (tmod - t0) / act_dur))
  else 0

/-- The time-within-cycle is invariant under a shift by one cycle length. -/
theorem pymod_period (t : ℝ) : pymod (t + T_cycl) T_cycl = pymod t T_cycl := by
  have hT : (T_cycl : ℝ) ≠ 0 := by norm_num [T_cycl]
  unfold pymod
  have hdiv : (t + T_cycl) / T_cycl = t / T_cycl + 1 := by field_simp
  rw [hdiv, Int.floor_add_one]
  push_cast
  ring

/-- A raised-cosine value lies in the unit interval. -/
theorem raised_cosine_mem_unit (x : ℝ) :
    0 ≤ 0.5 * (1 - Real.cos x) ∧ 0.5 * (1 - Real.cos x) ≤ 1 :=
  ⟨by linarith [Real.cos_le_one x], by linarith [Real.neg_one_le_cos x]⟩

/-- C8: both activation curves return the raised-cosine value
`0.5 * (1 - cos(2 pi (tmod - onset) / duration))` for `tmod = t % T_cycl`
inside the half-open window `[onset, onset + duration)`, return 0 outside it
(at `tmod = onset + duration` the code still takes the cosine branch, whose
value is exactly 0 there), always lie in `[0, 1]`, and are periodic with
period `T_cycl`. The atrial curve tc1 has onset 0 and duration `2 * t_ed`;
the ventricular curve tc2 has onset `t_ed` and duration
`1.8 * (t_es - t_ed)`. -/
theorem activation_curves_raised_cosine (t : ℝ) :
    (0 ≤ pymod t T_cycl ∧ pymod t T_cycl < 2 * t_ed →
      tc1 t = 0.5 * (1 - Real.cos (2 * Real.pi * (pymod t T_cycl) / (2 * t_ed)))) ∧
    (pymod t T_cycl < 0 ∨ 2 * t_ed ≤ pymod t T_cycl → tc1 t = 0) ∧
    (0 ≤ tc1 t ∧ tc1 t ≤ 1) ∧
    tc1 (t + T_cycl) = tc1 t ∧
    (t_ed ≤ pymod t T_cycl ∧ pymod t T_cycl < t_ed + 1.8 * (t_es - t_ed) →
      tc2 t = 0.5 * (1 - Real.cos (2 * Real.pi * (pymod t T_cycl - t_ed) /
        (1.8 * (t_es - t_ed))))) ∧
    (pymod t T_cycl < t_ed ∨ t_ed + 1.8 * (t_es - t_ed) ≤ pymod t T_cycl →
      tc2 t = 0) ∧
    (0 ≤ tc2 t ∧ tc2 t ≤ 1) ∧
    tc2 (t + T_cycl) = tc2 t := by
  have hdur1 : (2 : ℝ) * t_ed ≠ 0 := by norm_num [t_ed, T_cycl]
  have hdur2 : (1.8 : ℝ) * (t_es - t_ed) ≠ 0 := by norm_num [t_es, t_ed, T_cycl]
  have hted : (0 : ℝ) ≤ t_ed := by norm_num [t_ed, T_cycl]
  have hdur2pos : (0 : ℝ) ≤ 1.8 * (t_es - t_ed) := by norm_num [t_es, t_ed, T_cycl]
  refine ⟨?_, ?_, ?_, ?_, ?_, ?_, ?_, ?_⟩
  · intro h
    simp only [tc1]
    rw [if_pos ⟨h.1, by rw [zero_add]; exact le_of_lt h.2⟩, sub_zero]
  · intro h
    rcases h with h | h
    · simp only [tc1]
      rw [if_neg]
      intro hc
      exact absurd hc.1 (not_le.mpr h)
    · rcases eq_or_lt_of_le h with heq | hlt
      · simp only [tc1]
        rw [if_pos ⟨by rw [← heq]; positivity, by rw [zero_add, ← heq]⟩,
          sub_zero, ← heq, mul_div_assoc, div_self hdur1, mul_one,
          Real.cos_two_pi]
        ring
      · simp only [tc1]
        rw [if_neg]
        intro hc
        rw [zero_add] at hc
        exact absurd hlt (not_lt.mpr hc.2)
  · simp only [tc1]
    split
    · exact raised_cosine_mem_unit _
    · norm_num
  · simp only [tc1, pymod_period]
  · intro h
    simp only [tc2]
    rw [if_pos ⟨h.1, le_of_lt h.2⟩]
  · intro h
    rcases h with h | h
    · simp only [tc2]
      rw [if_neg]
      intro hc
      exact absurd hc.1 (not_le.mpr h)
    · rcases eq_or_lt_of_le h with heq | hlt
      · simp only [tc2]
        rw [if_pos ⟨by rw [← heq]; linarith, by rw [← heq]⟩, ← heq,
          add_sub_cancel_left, mul_div_assoc, div_self hdur2, mul_one,
          Real.cos_two_pi]
        ring
      · simp only [tc2]
        rw [if_neg]
        intro hc
        exact absurd hlt (not_lt.mpr hc.2)
  · simp only [tc2]
    split
    · exact raised_cosine_mem_unit _
    · norm_num
  · simp only [tc2, pymod_period]

/-- C8 witness: at t = 0.35, which lies outside both active windows of the
first cycle, both curves evaluate to 0. -/
theorem activation_curves_raised_cosine_witness :
    tc1 0.35 = 0 ∧ tc2 0.35 = 0 := by
  have hfloor : ⌊(0.35 : ℝ) / T_cycl⌋ = 0 := by
    rw [Int.floor_eq_zero_iff]
    constructor <;> norm_num [T_cycl]
  have hm : pymod 0.35 T_cycl = 0.35 := by
    unfold pymod
    rw [hfloor]
    norm_num
  exact ⟨(activation_curves_raised_cosine 0.35).2.1
      (Or.inr (by rw [hm]; norm_num [t_ed, T_cycl])),
    (activation_curves_raised_cosine 0.35).2.2.2.2.2.1
      (Or.inr (by rw [hm]; norm_num [t_es, t_ed, T_cycl]))⟩

/-! ## The time-loop body of `Flow0DSolver.solve_problem` (flow0d.py, lines 200-257) -/

/-- What `solnln.newton(self.pb.s, t-t_off)` produces: the converged state and
the recomputed `df`, `f`, `aux` vectors (mutated through residual assembly). -/
structure NewtonResult where
  s : ℕ → ℚ
  df : ℕ → ℚ
  f : ℕ → ℚ
  aux : ℕ → ℚ

/-- What `cardvasc0D.update(...)` produces: the new old-step vectors. -/
structure UpdateResult where
  s_old : ℕ → ℚ
  df_old : ℕ → ℚ
  f_old : ℕ → ℚ
  aux_old : ℕ → ℚ

/-- What `cardvasc0D.cycle_check(...)` produces: the periodicity flag and the
mutated cycle snapshot vectors, cycle counter and cycle error. -/
structure CycleCheckResult where
  is_periodic : Bool
  sTc : ℕ → ℚ
  sTc_old : ℕ → ℚ
  cycle : ℕ
  cycleerror : ℚ

/-- Abstract interface to the model/solver methods the loop body calls whose
bodies are not among the analysed sources (`cardiovascular0D.update`,
`cardiovascular0D.cycle_check`, and the per-step Newton solve). Each field
takes exactly the non-I/O arguments the call sites in
`Flow0DSolver.solve_problem` pass (flow0d.py, lines 215, 221, 234). -/
structure Cardvasc0DOps where
  newton_solve : (ℕ → ℚ) → (ℕ → ℚ) → (ℕ → ℚ) → (ℕ → ℚ) → (ℕ → ℚ) → ℚ → NewtonResult
  update : (ℕ → ℚ) → (ℕ → ℚ) → (ℕ → ℚ) → (ℕ → ℚ) → (ℕ → ℚ) → (ℕ → ℚ) →
    (ℕ → ℚ) → (ℕ → ℚ) → UpdateResult
  cycle_check : (ℕ → ℚ) → (ℕ → ℚ) → (ℕ → ℚ) → ℚ → ℕ → ℚ → ℚ → String → ℤ →
    CycleCheckResult

/-- The mutable per-run state of a `Flow0DProblem` the loop body touches
(flow0d.py, lines 111-117), including the midpoint vectors `s_mid` and
`aux_mid`. -/
structure Flow0DState where
  s : ℕ → ℚ
  s_old : ℕ → ℚ
  df : ℕ → ℚ
  df_old : ℕ → ℚ
  f : ℕ → ℚ
  f_old : ℕ → ℚ
  aux : ℕ → ℚ
  aux_old : ℕ → ℚ
  sTc : ℕ → ℚ
  sTc_old : ℕ → ℚ
  cycle : ℕ
  cycleerror : ℚ
  s_mid : ℕ → ℚ
  aux_mid : ℕ → ℚ

/-- Modelled from the spec: `cardiovascular0D.midpoint_avg` (the
cardiovascular0D base class is not among the analysed sources): the
post-processing midpoint value `theta * new + (1 - theta) * old`. -/
def midpoint_avg (theta : ℚ) (vnew vold : ℕ → ℚ) : ℕ → ℚ :=
  fun i => theta * vnew i + (1 - theta) * vold i

/-- Embedding of one pass of the flow-0d main time loop
(`Flow0DSolver.solve_problem`, flow0d.py, lines 214-237), in call order:
Newton solve on `s`; midpoint averages of `(s, s_old)` and `(aux, aux_old)`
into `s_mid`/`aux_mid` (the code comments "has to be called before update!");
`update` of the old-step vectors; `cycle_check`. Screen printing
(`print_to_screen(s_mid, aux_mid)`) and the txt output
(`write_output(..., s_mid, aux_mid, ...)`) - the only consumers of the
midpoint vectors - are I/O and produce no state. -/
def solve_step (ops : Cardvasc0DOps) (pb : Flow0DProblemRec) (st : Flow0DState)
    (t : ℚ) : Flow0DState :=
  let nr := ops.newton_solve st.s st.s_old st.df_old st.f_old st.aux_old t
  let s_mid2 := midpoint_avg pb.theta_ost nr.s st.s_old
  let aux_mid2 := midpoint_avg pb.theta_ost nr.aux st.aux_old
  let ur := ops.update nr.s nr.df nr.f st.s_old st.df_old st.f_old nr.aux st.aux_old
  let cr := ops.cycle_check nr.s st.sTc st.sTc_old t st.cycle st.cycleerror
    pb.eps_periodic pb.periodic_checktype pb.perturb_after_cylce
  { s := nr.s, s_old := ur.s_old, df := nr.df, df_old := ur.df_old,
    f := nr.f, f_old := ur.f_old, aux := nr.aux, aux_old := ur.aux_old,
    sTc := cr.sTc, sTc_old := cr.sTc_old, cycle := cr.cycle,
    cycleerror := cr.cycleerror, s_mid := s_mid2, aux_mid := aux_mid2 }

/-- Agreement of two loop states on every dynamical (non-midpoint) field. -/
def dynEq (a b : Flow0DState) : Prop :=
  a.s = b.s ∧ a.s_old = b.s_old ∧ a.df = b.df ∧ a.df_old = b.df_old ∧
  a.f = b.f ∧ a.f_old = b.f_old ∧ a.aux = b.aux ∧ a.aux_old = b.aux_old ∧
  a.sTc = b.sTc ∧ a.sTc_old = b.sTc_old ∧ a.cycle = b.cycle ∧
  a.cycleerror = b.cycleerror

/-- C9: for any model operations, the dynamical state a loop pass advances
(`s`, `s_old`, the `f`/`df` histories, `aux`, the cycle snapshots and
counter) never depends on the incoming midpoint vectors - two states agreeing
on every non-midpoint field advance to states agreeing on every non-midpoint
field - and the outgoing midpoint vectors equal
`theta * S_new + (1 - theta) * S_old` formed from the converged Newton result
and the pre-update old state, i.e. they are computed only after the step's
Newton solve and feed nothing but output. -/
theorem midpoint_values_output_only_frame (ops : Cardvasc0DOps)
    (pb : Flow0DProblemRec) (st1 st2 : Flow0DState) (t : ℚ)
    (h : dynEq st1 st2) :
    dynEq (solve_step ops pb st1 t) (solve_step ops pb st2 t) ∧
    (solve_step ops pb st1 t).s_mid =
      midpoint_avg pb.theta_ost
        (ops.newton_solve st1.s st1.s_old st1.df_old st1.f_old st1.aux_old t).s
        st1.s_old ∧
    (solve_step ops pb st1 t).aux_mid =
      midpoint_avg pb.theta_ost
        (ops.newton_solve st1.s st1.s_old st1.df_old st1.f_old st1.aux_old t).aux
        st1.aux_old := by
  obtain ⟨h1, h2, h3, h4, h5, h6, h7, h8, h9, h10, h11, h12⟩ := h
  refine ⟨?_, rfl, rfl⟩
  unfold solve_step dynEq
  simp [h1, h2, h3, h4, h5, h6, h7, h8, h9, h10, h11, h12]

/-- Constant model operations for the witness run. -/
def ops_const : Cardvasc0DOps :=
  { newton_solve := fun _ _ _ _ _ _ =>
      { s := s_zero, df := s_zero, f := s_zero, aux := s_zero }
    update := fun _ _ _ _ _ _ _ _ =>
      { s_old := s_zero, df_old := s_zero, f_old := s_zero, aux_old := s_zero }
    cycle_check := fun _ _ _ _ _ _ _ _ _ =>
      { is_periodic := false, sTc := s_zero, sTc_old := s_zero, cycle := 1,
        cycleerror := 0 } }

def pb_syspul : Flow0DProblemRec :=
  { eps_periodic := 1 / 100000000000000000000, periodic_checktype := "allvar",
    perturb_type := none, perturb_after_cylce := -1,
    cardvasc0D := .cardiovascular0Dsyspul, theta_ost := 1 / 2 }

def st_base : Flow0DState :=
  { s := s_zero, s_old := s_zero, df := s_zero, df_old := s_zero, f := s_zero,
    f_old := s_zero, aux := s_zero, aux_old := s_zero, sTc := s_zero,
    sTc_old := s_zero, cycle := 1, cycleerror := 0, s_mid := s_zero,
    aux_mid := s_zero }

/-- The same dynamical state as `st_base` but with a different incoming
midpoint vector. -/
def st_base2 : Flow0DState := { st_base with s_mid := fun _ => 1 }

/-- C9 witness: two concrete states differing only in their incoming midpoint
vector advance identically on every dynamical field, and the outgoing
midpoints are the theta-averages of the converged result. -/
theorem midpoint_values_output_only_frame_witness :
    dynEq (solve_step ops_const pb_syspul st_base 0)
      (solve_step ops_const pb_syspul st_base2 0) ∧
    (solve_step ops_const pb_syspul st_base 0).s_mid =
      midpoint_avg pb_syspul.theta_ost
        (ops_const.newton_solve st_base.s st_base.s_old st_base.df_old
          st_base.f_old st_base.aux_old 0).s st_base.s_old ∧
    (solve_step ops_const pb_syspul st_base 0).aux_mid =
      midpoint_avg pb_syspul.theta_ost
        (ops_const.newton_solve st_base.s st_base.s_old st_base.df_old
          st_base.f_old st_base.aux_old 0).aux st_base.aux_old :=
  midpoint_values_output_only_frame ops_const pb_syspul st_base st_base2 0
    ⟨rfl, rfl, rfl, rfl, rfl, rfl, rfl, rfl, rfl, rfl, rfl, rfl⟩

end Ambit
